import Mathlib

/-!
# Verification of the ShaderManager sampling core

A shallow embedding of the UDIM color-sampling pipeline
(`source/core/udim_sampler.py`) and the shader cache/assigner
(`core/shader_assigner.py`).  Host-application and filesystem calls
(Maya `cmds`, PIL image decoding) are modelled as oracle functions; the
control flow, caching, arithmetic and string processing of the Python
source are translated directly.
-/

namespace ShaderManager

/-- Python `int(q)` on a real value: truncation toward zero. -/
def pyInt (q : ℚ) : ℤ := if 0 ≤ q then ⌊q⌋ else ⌈q⌉

/-- `udim_number = 1001 + tile_u + tile_v * 10` with
`tile_u = int(math.floor(u))`, `tile_v = int(math.floor(v))`
(udim_sampler.py, lines 170-171). -/
def udimNumber (u v : ℚ) : ℤ := 1001 + ⌊u⌋ + ⌊v⌋ * 10

/-- `px = min(int((u - tile_u) * width), width - 1)` (udim_sampler.py line 192). -/
def pixelX (u : ℚ) (width : ℕ) : ℤ :=
  min (pyInt ((u - (⌊u⌋ : ℚ)) * (width : ℚ))) ((width : ℤ) - 1)

/-- `py = min(int((1.0 - (v - tile_v)) * height), height - 1)` (udim_sampler.py line 193). -/
def pixelY (v : ℚ) (height : ℕ) : ℤ :=
  min (pyInt ((1 - (v - (⌊v⌋ : ℚ))) * (height : ℚ))) ((height : ℤ) - 1)

/-- Clamping an integer into `[lo, hi]`, used to state the spec's pixel-mapping. -/
def clamp (x lo hi : ℤ) : ℤ := max lo (min x hi)

/-- Python's `str.replace` (all occurrences, left to right, non-overlapping),
on character lists; structural recursion on a fuel that starts at the
list's length (each step consumes at least one character, so the fuel
never runs out). -/
def pyReplaceGo (pat rep : List Char) : ℕ → List Char → List Char
  | 0, l => l
  | _ + 1, [] => []
  | fuel + 1, c :: rest =>
    if pat.isPrefixOf (c :: rest) then
      rep ++ pyReplaceGo pat rep fuel (List.drop (pat.length - 1) rest)
    else
      c :: pyReplaceGo pat rep fuel rest

/-- Python's `str.replace` on character lists. -/
def pyReplaceAux (pat rep : List Char) (l : List Char) : List Char :=
  pyReplaceGo pat rep l.length l

/-- Python's `s.replace(pat, rep)` on strings. -/
def pyReplace (s pat rep : String) : String :=
  String.mk (pyReplaceAux pat.toList rep.toList s.toList)

/-- `udim_template.replace("<UDIM>", str(n)).replace("<f>", str(n))`
(udim_sampler.py line 172). -/
def resolvePath (udim_template : String) (n : ℤ) : String :=
  pyReplace (pyReplace udim_template "<UDIM>" (toString n)) "<f>" (toString n)

/-- Python's `str.lower()` (ASCII case folding suffices for the
extensions compared here). -/
def pyLower (s : String) : String := String.mk (s.toList.map Char.toLower)

/-- Python's `str.endswith(suffix)`. -/
def pyEndsWith (s suffix : String) : Bool := suffix.toList.isSuffixOf s.toList

/-- `texture_path.lower().endswith(('.jpg', '.jpeg', '.jfif'))`
(udim_sampler.py line 182). -/
def isJpegFamily (p : String) : Bool :=
  let l := pyLower p
  pyEndsWith l ".jpg" || pyEndsWith l ".jpeg" || pyEndsWith l ".jfif"

/-- A decoded raster image: PIL's `Image` after `.convert("RGB")`.
`getpixel` returns `none` where PIL would raise (out-of-range access). -/
structure Image where
  width : ℕ
  height : ℕ
  getpixel : ℤ → ℤ → Option (ℕ × ℕ × ℕ)

/-- Filesystem / PIL oracle: `os.path.exists`, `Image.open(...).convert("RGB")`
(`none` when opening raises), and the result of the `fix_and_reload_jpeg`
repair routine (truncation-tolerant load, re-encode to a temporary file,
replace the original, reopen; `none` when the repair itself fails). -/
structure FSEnv where
  os_path_exists : String → Bool
  image_open : String → Option Image
  fix_and_reload_jpeg : String → Option Image

/-- Host-scene view of one mesh shape: its UV sets and, per UV set, the
per-component `cmds.polyEditUV(uv, query=True)` results (`none` for a
falsy/empty coordinate query). -/
structure Shape where
  allUVSets : List String
  uvCoords : String → List (Option (ℚ × ℚ))

/-- The mutable scene state touched by the sampler: the shape's current UV
set, plus a log of every `cmds.polyUVSet(..., currentUVSet=True, uvSet=...)`
switch performed. -/
structure SceneState where
  currentUVSet : String
  setLog : List String
deriving DecidableEq

/-- `cmds.polyUVSet(shape, currentUVSet=True, uvSet=name)`. -/
def switchUVSet (s : SceneState) (name : String) : SceneState :=
  { currentUVSet := name, setLog := s.setLog ++ [name] }

/-- One entry of the `results` list built by `sample_uv_colors_from_udim`:
`{"uv": [u, v], "tile": udim_number, "pixel": [px, py], "color": color}`. -/
structure SampleResult where
  uv : ℚ × ℚ
  tile : ℤ
  pixel : ℤ × ℤ
  color : Option (ℕ × ℕ × ℕ)
deriving DecidableEq

/-- The sampler's per-pass mutable state: the image cache keyed by resolved
path, the sampler's `failed_textures` set, and logs of repair attempts and
image opens (for stating how often I/O happens). -/
structure PassState where
  cache : List (String × Option Image)
  failed : List String
  repairs : List String
  opens : List String
  results : List SampleResult

def emptyPass : PassState := ⟨[], [], [], [], []⟩

/-- `image_cache` lookup (`texture_path not in image_cache` / indexing). -/
def lookupCache (c : List (String × Option Image)) (p : String) : Option (Option Image) :=
  (c.find? (fun e => e.1 = p)).map (fun e => e.2)

/-- Appending one sample record (udim_sampler.py lines 191-198). -/
def appendSample (st : PassState) (u v : ℚ) (n : ℤ) (img : Image) : PassState :=
  let px := pixelX u img.width
  let py := pixelY v img.height
  { st with results := st.results ++ [⟨(u, v), n, (px, py), img.getpixel px py⟩] }

/-- One iteration of the `for uv in uv_components` loop of
`sample_uv_colors_from_udim` (udim_sampler.py lines 165-198). -/
def udimStep (env : FSEnv) (tmpl : String) (st : PassState) :
    Option (ℚ × ℚ) → PassState
  | none => st
  | some (u, v) =>
    let n := udimNumber u v
    let p := resolvePath tmpl n
    match lookupCache st.cache p with
    | none =>
      if env.os_path_exists p then
        let st1 := { st with opens := st.opens ++ [p] }
        match env.image_open p with
        | some img =>
          appendSample { st1 with cache := st1.cache ++ [(p, some img)] } u v n img
        | none =>
          if isJpegFamily p then
            { st1 with
              repairs := st1.repairs ++ [p]
              cache := st1.cache ++ [(p, env.fix_and_reload_jpeg p)] }
          else
            { st1 with cache := st1.cache ++ [(p, none)] }
      else
        { st with failed := st.failed ++ [p], cache := st.cache ++ [(p, none)] }
    | some none => st
    | some (some img) => appendSample st u v n img

/-- The observable outcome of `sample_uv_colors_from_udim`: the returned
list, the scene state after the `finally` restore, and the final pass
state (cache, failed set, logs). -/
structure SampleOut where
  results : List SampleResult
  scene : SceneState
  st : PassState

/-- `UDIMSampler.sample_uv_colors_from_udim` (udim_sampler.py lines 156-201):
early return on an unknown UV set; otherwise save the current UV set,
switch to the requested one, run the sampling loop, and restore in a
`finally` block. -/
def sample_uv_colors_from_udim (env : FSEnv) (shape : Shape)
    (uv_set_name udim_template : String) (scene : SceneState) : SampleOut :=
  if uv_set_name ∈ shape.allUVSets then
    let original := scene.currentUVSet
    let scene1 := switchUVSet scene uv_set_name
    let st := (shape.uvCoords uv_set_name).foldl (udimStep env udim_template) emptyPass
    { results := st.results, scene := switchUVSet scene1 original, st := st }
  else
    { results := [], scene := scene, st := emptyPass }

/-! ## Shader cache and assigner (`core/shader_assigner.py`) -/

/-- An RGB color as three integer channels (the JSON sample colors). -/
abbrev Color3 := ℤ × ℤ × ℤ

/-- `ShaderAssigner.colors_match` (shader_assigner.py lines 105-109):
every channel pair differs by at most `tolerance` (inclusive). -/
def colors_match (c1 c2 : Color3) (tolerance : ℤ) : Bool :=
  |c1.1 - c2.1| ≤ tolerance && |c1.2.1 - c2.2.1| ≤ tolerance &&
    |c1.2.2 - c2.2.2| ≤ tolerance

/-- Left-pad a string with zeros to width `w`. -/
def padZeros (s : String) (w : ℕ) : String :=
  if w ≤ s.length then s else String.mk (List.replicate (w - s.length) '0') ++ s

/-- Python `"{:03d}".format(n)`: zero-padded to total width 3 (the sign
occupies one column for negative values). -/
def format03 (n : ℤ) : String :=
  if n < 0 then "-" ++ padZeros (toString (-n)) 2 else padZeros (toString n) 3

/-- `"shader_{:03d}_{:03d}_{:03d}".format(*color_rgb)` (shader_assigner.py line 124). -/
def shader_name_for (c : Color3) : String :=
  "shader_" ++ format03 c.1 ++ "_" ++ format03 c.2.1 ++ "_" ++ format03 c.2.2

/-- The observable result of `create_lambert_shader` (shader_assigner.py
lines 80-90): the shader node, its shading group `shader + "SG"`, and the
`.color` attribute set to each channel divided by 255.0. -/
structure LambertShader where
  shader : String
  sg : String
  color_attr : ℚ × ℚ × ℚ
deriving DecidableEq

/-- `ShaderAssigner.create_lambert_shader` (shader_assigner.py lines 80-90). -/
def create_lambert_shader (shader_name : String) (rgb : Color3) : LambertShader :=
  { shader := shader_name
    sg := shader_name ++ "SG"
    color_attr := ((rgb.1 : ℚ) / 255, (rgb.2.1 : ℚ) / 255, (rgb.2.2 : ℚ) / 255) }

/-- The `ShaderAssigner` instance state: `self.shader_cache` mapping color
keys to shading groups (in insertion order), plus the log of shaders
created through `create_lambert_shader`. -/
structure AssignerState where
  shader_cache : List (Color3 × String)
  created : List LambertShader
deriving DecidableEq

def emptyAssigner : AssignerState := ⟨[], []⟩

/-- `ShaderAssigner.get_or_create_shader_for_color` (shader_assigner.py
lines 114-127): scan the cache for the first entry within tolerance; if
none matches, create a deterministically named lambert shader, register
its shading group keyed by the requested color, and return it. -/
def get_or_create_shader_for_color (st : AssignerState) (color_rgb : Color3)
    (tolerance : ℤ) : String × AssignerState :=
  match st.shader_cache.find? (fun e => colors_match color_rgb e.1 tolerance) with
  | some e => (e.2, st)
  | none =>
    let lam := create_lambert_shader (shader_name_for color_rgb) color_rgb
    (lam.sg,
      { shader_cache := st.shader_cache ++ [(color_rgb, lam.sg)]
        created := st.created ++ [lam] })

/-! ## Batch sampling pass (`sample_and_save_all_meshes`) -/

/-- One recorded mesh entry of the output JSON (abstracted: the claims
only concern whether records survive to the output). -/
abbrev MeshRecord := String

/-- Oracle view of `sample_and_save_all_meshes`' collaborators: the scene's
mesh shapes, the poll index at which the user's cancellation becomes
visible (`progress_dialog.wasCanceled()` latches true from then on), the
per-shape body of the loop (`none` when the namespace/shader/texture
filters skip the shape, `some record` when it is recorded), and the JSON
output path. -/
structure BatchEnv where
  shapes : List String
  cancelAt : Option ℕ
  sampleShape : ℕ → Option MeshRecord
  outPath : String

/-- `progress_dialog.wasCanceled()` at the poll for shape index `i`. -/
def wasCanceled (env : BatchEnv) (i : ℕ) : Bool :=
  match env.cancelAt with
  | some k => decide (k ≤ i)
  | none => false

/-- The `for idx, shape in enumerate(shapes)` loop (udim_sampler.py lines
222-264): returns whether the pass was cancelled, the accumulated
`matched_meshes`, and the indices of the loop iterations that ran. -/
def runShapes (env : BatchEnv) : ℕ → List String → Bool × List MeshRecord × List ℕ
  | _, [] => (false, [], [])
  | i, _ :: rest =>
    if wasCanceled env i then (true, [], [])
    else
      let r := runShapes env (i + 1) rest
      (r.1, (env.sampleShape i).toList ++ r.2.1, i :: r.2.2)

/-- `UDIMSampler.sample_and_save_all_meshes` (udim_sampler.py lines
212-284), observable outcome: the returned value (`none` on early return),
the JSON writes performed (path, recorded meshes), and the iterations
entered.  On cancellation the function returns `None` before the dialog is
closed and before any JSON is assembled or written. -/
def sample_and_save_all_meshes (env : BatchEnv) :
    Option String × List (String × List MeshRecord) × List ℕ :=
  match env.shapes with
  | [] => (none, [], [])
  | _ =>
    let r := runShapes env 0 env.shapes
    if r.1 then (none, [], r.2.2)
    else (some env.outPath, [(env.outPath, r.2.1)], r.2.2)

/-! ## UDIM template conversion (`convert_to_udim_template`) -/

/-- Does `re.search(r'(\d{4})(?=\.[^.]+$)', filename)` match at the head of
this suffix: four digits followed by a dot and a nonempty, dot-free
remainder reaching the end of the string. -/
def matchesAt : List Char → Bool
  | d1 :: d2 :: d3 :: d4 :: e :: rest =>
    d1.isDigit && d2.isDigit && d3.isDigit && d4.isDigit && (e = '.') &&
      !rest.isEmpty && rest.all (fun c => c ≠ '.')
  | _ => false

/-- The effect of `re.search(r'(\d{4})(?=\.[^.]+$)', filename)` followed by
`filename[:match.start()] + "<UDIM>" + filename[match.end():]`: replace the
leftmost (in fact unique) matching 4-digit run, or return `none` when the
pattern does not occur. -/
def udimSearchReplace : List Char → Option (List Char)
  | [] => none
  | c :: rest =>
    if matchesAt (c :: rest) then
      some ("<UDIM>".toList ++ List.drop 4 (c :: rest))
    else
      (udimSearchReplace rest).map (fun l => c :: l)

/-- `os.path.split` (POSIX): split at the last separator; the head keeps no
trailing slashes unless it consists only of slashes. -/
def os_path_split (cs : List Char) : List Char × List Char :=
  let tail := (cs.reverse.takeWhile (fun c => c ≠ '/')).reverse
  let head := cs.take (cs.length - tail.length)
  if head.all (fun c => c = '/') then (head, tail)
  else ((head.reverse.dropWhile (fun c => c = '/')).reverse, tail)

/-- `os.path.join(folder, name)` (POSIX) for the shapes produced by
`os_path_split`. -/
def os_path_join (folder name : List Char) : List Char :=
  if folder = [] then name
  else if folder.getLast? = some '/' then folder ++ name
  else folder ++ '/' :: name

/-- Python's substring containment `pat in s` on character lists. -/
def hasSubstring (pat : List Char) : List Char → Bool
  | [] => pat.isEmpty
  | c :: rest => pat.isPrefixOf (c :: rest) || hasSubstring pat rest

/-- `UDIMSampler.convert_to_udim_template` (udim_sampler.py lines 71-79):
an `<f>` marker in the filename is rewritten to `<UDIM>`; otherwise a
4-digit run immediately before the extension is replaced with `<UDIM>`;
otherwise the path is returned unchanged.  On both rewrite branches the
joined result is passed through `.replace("\\", "/")` (lines 74 and 79);
the unchanged branch returns the original path without normalization. -/
def convert_to_udim_template (texture_path : String) : String :=
  let cs := texture_path.toList
  let sp := os_path_split cs
  if hasSubstring "<f>".toList sp.2 then
    String.mk (pyReplaceAux "\\".toList "/".toList
      (os_path_join sp.1 (pyReplaceAux "<f>".toList "<UDIM>".toList sp.2)))
  else
    match udimSearchReplace sp.2 with
    | none => texture_path
    | some f => String.mk (pyReplaceAux "\\".toList "/".toList (os_path_join sp.1 f))

/-! ## Basic lemmas -/

lemma pyInt_of_nonneg {q : ℚ} (h : 0 ≤ q) : pyInt q = ⌊q⌋ := if_pos h

lemma fract_nonneg' (u : ℚ) : (0 : ℚ) ≤ u - (⌊u⌋ : ℚ) :=
  sub_nonneg.mpr (Int.floor_le u)

lemma fract_lt_one' (u : ℚ) : u - (⌊u⌋ : ℚ) < 1 := by
  have := Int.lt_floor_add_one u
  linarith

/-- C2 — For every UV coordinate and every tile image of width ≥ 1 and
height ≥ 1, with `tile_u = ⌊U⌋` and `tile_v = ⌊V⌋`, the pixel location read
by `sample_uv_colors_from_udim` satisfies
`pixel_x = clamp(⌊(U − tile_u)·width⌋, 0, width−1)` and
`pixel_y = clamp(⌊(1 − (V − tile_v))·height⌋, 0, height−1)`; in particular
width 100 with U fractional part 0.5 gives `pixel_x = 50`, and V fractional
part 0.25 gives `pixel_y = ⌊0.75·height⌋`.  (`pixelX`/`pixelY` are exactly
the expressions computed at udim_sampler.py lines 192-193 and used by
`udimStep`.) -/
theorem pixel_mapping_clamped (u v : ℚ) (w h : ℕ) (hw : 1 ≤ w) (hh : 1 ≤ h) :
    (pixelX u w = clamp ⌊(u - (⌊u⌋ : ℚ)) * (w : ℚ)⌋ 0 ((w : ℤ) - 1)
      ∧ pixelY v h = clamp ⌊(1 - (v - (⌊v⌋ : ℚ))) * (h : ℚ)⌋ 0 ((h : ℤ) - 1))
    ∧ (u - (⌊u⌋ : ℚ) = 1/2 → pixelX u 100 = 50)
    ∧ (v - (⌊v⌋ : ℚ) = 1/4 → pixelY v h = ⌊(3/4 : ℚ) * (h : ℚ)⌋) := by
  have hw0 : (0 : ℚ) ≤ (w : ℚ) := by positivity
  have hh0 : (0 : ℚ) ≤ (h : ℚ) := by positivity
  have hxu : (0 : ℚ) ≤ (u - (⌊u⌋ : ℚ)) * (w : ℚ) := mul_nonneg (fract_nonneg' u) hw0
  have hyv : (0 : ℚ) ≤ (1 - (v - (⌊v⌋ : ℚ))) * (h : ℚ) := by
    have := fract_lt_one' v
    have h1 : (0 : ℚ) ≤ 1 - (v - (⌊v⌋ : ℚ)) := by linarith
    exact mul_nonneg h1 hh0
  have hw1 : (0 : ℤ) ≤ (w : ℤ) - 1 := by
    have : (1 : ℤ) ≤ (w : ℤ) := by exact_mod_cast hw
    omega
  have hh1 : (0 : ℤ) ≤ (h : ℤ) - 1 := by
    have : (1 : ℤ) ≤ (h : ℤ) := by exact_mod_cast hh
    omega
  refine ⟨⟨?_, ?_⟩, ?_, ?_⟩
  · rw [pixelX, pyInt_of_nonneg hxu, clamp,
      max_eq_right (le_min (Int.floor_nonneg.mpr hxu) hw1)]
  · rw [pixelY, pyInt_of_nonneg hyv, clamp,
      max_eq_right (le_min (Int.floor_nonneg.mpr hyv) hh1)]
  · intro hfr
    rw [pixelX, hfr]
    norm_num [pyInt]
  · intro hfr
    rw [pixelY, hfr]
    have h34 : (1 : ℚ) - 1/4 = 3/4 := by norm_num
    rw [h34, pyInt_of_nonneg (by positivity)]
    have hlt : ⌊(3/4 : ℚ) * (h : ℚ)⌋ < (h : ℤ) := by
      rw [Int.floor_lt]
      have hq : (1 : ℚ) ≤ (h : ℚ) := by exact_mod_cast hh
      push_cast
      nlinarith
    exact min_eq_left (by omega)

/-- Witness for C2 at u = 5/2 (fractional part 1/2), v = 9/4 (fractional
part 1/4), width 100, height 4. -/
theorem pixel_mapping_clamped_witness :
    pixelX (5/2) 100 = 50 ∧ pixelY (9/4) 4 = ⌊(3/4 : ℚ) * (4 : ℚ)⌋ := by
  have h := pixel_mapping_clamped (5/2) (9/4) 100 4 (by norm_num) (by norm_num)
  exact ⟨h.2.1 (by norm_num), h.2.2 (by norm_num)⟩

/-- C8 — `sample_uv_colors_from_udim` saves the surface's current UV set
before switching and restores it unconditionally (the `finally` block at
udim_sampler.py line 200): the current UV set after the call equals its
value before the call, on every execution. -/
theorem uv_set_restored (env : FSEnv) (shape : Shape) (uv_set_name udim_template : String)
    (scene : SceneState) :
    (sample_uv_colors_from_udim env shape uv_set_name udim_template scene).scene.currentUVSet
      = scene.currentUVSet := by
  unfold sample_uv_colors_from_udim
  split <;> rfl

lemma sample_unknown_uv_set (env : FSEnv) (shape : Shape) (uv_set_name udim_template : String)
    (scene : SceneState) (h : uv_set_name ∉ shape.allUVSets) :
    sample_uv_colors_from_udim env shape uv_set_name udim_template scene
      = ⟨[], scene, emptyPass⟩ := by
  unfold sample_uv_colors_from_udim
  rw [if_neg h]

/-- C10 — If the requested UV-set name is not among the shape's available
UV sets, `sample_uv_colors_from_udim` returns the empty list immediately,
leaves the scene state untouched (no UV-set switch) and performs no image
open, no cache fill, no failed-set or repair activity. -/
theorem unknown_uv_set_noop (env : FSEnv) (shape : Shape) (uv_set_name udim_template : String)
    (scene : SceneState) (h : uv_set_name ∉ shape.allUVSets) :
    sample_uv_colors_from_udim env shape uv_set_name udim_template scene
      = ⟨[], scene, emptyPass⟩ :=
  sample_unknown_uv_set env shape uv_set_name udim_template scene h

/-- Concrete shape, image and filesystem used by witnesses: a single 1×1
texture `"t"` on disk, one UV component at (0, 0) in UV set `"map1"`. -/
def wImg : Image := ⟨1, 1, fun _ _ => some (10, 20, 30)⟩

def wEnv : FSEnv :=
  ⟨fun p => p = "t", fun p => if p = "t" then some wImg else none, fun _ => none⟩

def wShape : Shape := ⟨["map1"], fun s => if s = "map1" then [some (0, 0)] else []⟩

/-- Witness for C10: requesting UV set `"uvSet2"`, which `wShape` does not
have, is a complete no-op. -/
theorem unknown_uv_set_noop_witness :
    sample_uv_colors_from_udim wEnv wShape "uvSet2" "t" ⟨"map1", []⟩
      = ⟨[], ⟨"map1", []⟩, emptyPass⟩ :=
  unknown_uv_set_noop wEnv wShape "uvSet2" "t" ⟨"map1", []⟩ (by decide)

/-- C3 — `get_or_create_shader_for_color` is idempotent under tolerance via
first-match lookup: a lookup returns the first cache entry whose every
channel differs from the requested color by at most the tolerance
(absolute difference, inclusive), not the nearest entry; with tolerance 2,
requesting (100,100,100) then (101,99,100) returns the same shading group
both times, while requesting (100,100,100) then (110,100,100) returns two
different shading groups. -/
theorem shader_cache_first_match :
    (∀ (st : AssignerState) (c : Color3) (tol : ℤ)
        (l1 l2 : List (Color3 × String)) (e : Color3 × String),
        st.shader_cache = l1 ++ e :: l2 →
        colors_match c e.1 tol = true →
        (∀ e2 ∈ l1, colors_match c e2.1 tol = false) →
        get_or_create_shader_for_color st c tol = (e.2, st))
    ∧ (get_or_create_shader_for_color
          (get_or_create_shader_for_color emptyAssigner (100, 100, 100) 2).2
          (101, 99, 100) 2).1
        = (get_or_create_shader_for_color emptyAssigner (100, 100, 100) 2).1
    ∧ (get_or_create_shader_for_color
          (get_or_create_shader_for_color emptyAssigner (100, 100, 100) 2).2
          (110, 100, 100) 2).1
        ≠ (get_or_create_shader_for_color emptyAssigner (100, 100, 100) 2).1 := by
  refine ⟨?_, by decide, by decide⟩
  intro st c tol l1 l2 e hcache hm hl1
  unfold get_or_create_shader_for_color
  rw [hcache, List.find?_append]
  have h1 : l1.find? (fun e2 => colors_match c e2.1 tol) = none :=
    List.find?_eq_none.mpr (by intro x hx; simp [hl1 x hx])
  rw [h1, ← hcache]
  simp [Option.orElse, List.find?_cons_of_pos, hm, hcache]

/-- Witness for C3's first-match property: with a cache holding
(0,0,0) ↦ sgA then (100,100,100) ↦ sgB, requesting (101,101,101) with
tolerance 2 skips the non-matching first entry, returns sgB, and leaves
the state unchanged. -/
theorem shader_cache_first_match_witness :
    get_or_create_shader_for_color ⟨[((0, 0, 0), "sgA"), ((100, 100, 100), "sgB")], []⟩
        (101, 101, 101) 2
      = ("sgB", ⟨[((0, 0, 0), "sgA"), ((100, 100, 100), "sgB")], []⟩) :=
  shader_cache_first_match.1 ⟨[((0, 0, 0), "sgA"), ((100, 100, 100), "sgB")], []⟩
    (101, 101, 101) 2 [((0, 0, 0), "sgA")] [] ((100, 100, 100), "sgB")
    rfl (by decide) (by decide)

/-- C4 — For a requested color with no cache entry within tolerance,
`get_or_create_shader_for_color` creates a material deterministically named
`shader_{R:03d}_{G:03d}_{B:03d}` from the exact requested color, sets the
material's color attribute to each 8-bit channel divided by 255.0,
registers the new shading group in the cache keyed by the requested color,
and returns it. -/
theorem shader_creation_on_miss (st : AssignerState) (c : Color3) (tol : ℤ)
    (h : ∀ e ∈ st.shader_cache, colors_match c e.1 tol = false) :
    get_or_create_shader_for_color st c tol =
      (shader_name_for c ++ "SG",
        { shader_cache := st.shader_cache ++ [(c, shader_name_for c ++ "SG")]
          created := st.created ++ [create_lambert_shader (shader_name_for c) c] })
    ∧ (create_lambert_shader (shader_name_for c) c).color_attr
        = ((c.1 : ℚ) / 255, (c.2.1 : ℚ) / 255, (c.2.2 : ℚ) / 255)
    ∧ shader_name_for (7, 100, 255) = "shader_007_100_255" := by
  have hn : st.shader_cache.find? (fun e2 => colors_match c e2.1 tol) = none :=
    List.find?_eq_none.mpr (by intro x hx; simp [h x hx])
  refine ⟨?_, rfl, by decide⟩
  unfold get_or_create_shader_for_color
  rw [hn]
  rfl

/-- Witness for C4: requesting (7, 100, 255) against an empty cache
creates `shader_007_100_255` with its shading group, color attribute
(7/255, 100/255, 255/255), and caches it keyed by (7, 100, 255). -/
theorem shader_creation_on_miss_witness :
    get_or_create_shader_for_color emptyAssigner (7, 100, 255) 2 =
      ("shader_007_100_255" ++ "SG",
        { shader_cache := [((7, 100, 255), "shader_007_100_255" ++ "SG")]
          created := [create_lambert_shader "shader_007_100_255" (7, 100, 255)] })
    ∧ (create_lambert_shader "shader_007_100_255" (7, 100, 255)).color_attr
        = (((7 : ℤ) : ℚ) / 255, ((100 : ℤ) : ℚ) / 255, ((255 : ℤ) : ℚ) / 255) := by
  have h := shader_creation_on_miss emptyAssigner (7, 100, 255) 2 (by decide)
  have hname : shader_name_for (7, 100, 255) = "shader_007_100_255" := h.2.2
  refine ⟨?_, ?_⟩
  · rw [h.1, hname]
    rfl
  · rw [← hname]
    exact h.2.1

/-! ## The sampling-pass invariant -/

/-- What the image cache must hold for a path once it has been touched:
`none` for a missing file; the opened image on success; the JPEG-repair
result when opening fails on a JPEG-family path; `none` otherwise. -/
def CacheSpecImg (env : FSEnv) (p : String) : Option Image :=
  if env.os_path_exists p then
    match env.image_open p with
    | some img => some img
    | none => if isJpegFamily p then env.fix_and_reload_jpeg p else none
  else none

lemma cacheSpecImg_exists_of_some {env : FSEnv} {p : String} {x : Image}
    (h : CacheSpecImg env p = some x) : env.os_path_exists p = true := by
  unfold CacheSpecImg at h
  by_cases hex : env.os_path_exists p = true
  · exact hex
  · rw [if_neg hex] at h
    exact absurd h (by simp)

lemma lookupCache_append (c : List (String × Option Image)) (p q : String)
    (e : Option Image) :
    lookupCache (c ++ [(p, e)]) q =
      match lookupCache c q with
      | some x => some x
      | none => if q = p then some e else none := by
  unfold lookupCache
  rw [List.find?_append]
  cases hf : c.find? (fun x => x.1 = q) with
  | some x => simp
  | none =>
    by_cases hpq : q = p
    · subst hpq
      simp [List.find?]
    · have hd : (decide (p = q)) = false := decide_eq_false (fun h => hpq h.symm)
      simp [List.find?, hpq, hd]

lemma lookupCache_append_of_found {c : List (String × Option Image)}
    {p q : String} {e x : Option Image} (h : lookupCache c q = some x) :
    lookupCache (c ++ [(p, e)]) q = some x := by
  rw [lookupCache_append, h]

lemma lookupCache_append_self {c : List (String × Option Image)} {p : String}
    {e : Option Image} (h : lookupCache c p = none) :
    lookupCache (c ++ [(p, e)]) p = some e := by
  rw [lookupCache_append, h]
  simp

lemma lookupCache_append_of_ne {c : List (String × Option Image)}
    {p q : String} {e : Option Image} (h : lookupCache c q = none) (hne : q ≠ p) :
    lookupCache (c ++ [(p, e)]) q = none := by
  rw [lookupCache_append, h]
  simp [hne]

/-- The invariant maintained by the `sample_uv_colors_from_udim` loop over
the already-processed prefix `done` of the UV component list. -/
structure PassInv (env : FSEnv) (tmpl : String) (done : List (Option (ℚ × ℚ)))
    (st : PassState) : Prop where
  cache_spec : ∀ p e, lookupCache st.cache p = some e → e = CacheSpecImg env p
  cache_covers : ∀ u v, some (u, v) ∈ done →
    lookupCache st.cache (resolvePath tmpl (udimNumber u v)) ≠ none
  fail_mem : ∀ q e, lookupCache st.cache q = some e →
    env.os_path_exists q = false → q ∈ st.failed
  repair_uncached : ∀ q, lookupCache st.cache q = none → st.repairs.count q = 0
  repair_pos : ∀ q e, lookupCache st.cache q = some e →
    env.os_path_exists q = true → env.image_open q = none →
    isJpegFamily q = true → st.repairs.count q = 1
  repair_neg_exists : ∀ q, env.os_path_exists q = false → st.repairs.count q = 0
  repair_neg_open : ∀ q img, env.image_open q = some img → st.repairs.count q = 0
  repair_neg_jpeg : ∀ q, isJpegFamily q = false → st.repairs.count q = 0
  results_tile : ∀ r ∈ st.results, r.tile = udimNumber r.uv.1 r.uv.2
  results_done : ∀ r ∈ st.results, some r.uv ∈ done
  results_exists : ∀ r ∈ st.results,
    env.os_path_exists (resolvePath tmpl r.tile) = true

lemma passInv_init (env : FSEnv) (tmpl : String) : PassInv env tmpl [] emptyPass := by
  constructor <;> intros <;> simp_all [emptyPass, lookupCache]

lemma passInv_skip {env : FSEnv} {tmpl : String} {done : List (Option (ℚ × ℚ))}
    {st : PassState} (h : PassInv env tmpl done st) (c : Option (ℚ × ℚ))
    (hc : ∀ u v, c = some (u, v) →
      lookupCache st.cache (resolvePath tmpl (udimNumber u v)) ≠ none) :
    PassInv env tmpl (done ++ [c]) st := by
  refine ⟨h.cache_spec, ?_, h.fail_mem, h.repair_uncached, h.repair_pos,
    h.repair_neg_exists, h.repair_neg_open, h.repair_neg_jpeg,
    h.results_tile, ?_, h.results_exists⟩
  · intro u v hm
    rcases List.mem_append.mp hm with hm | hm
    · exact h.cache_covers u v hm
    · exact hc u v (List.mem_singleton.mp hm).symm
  · intro r hr
    exact List.mem_append_left _ (h.results_done r hr)

lemma passInv_missing {env : FSEnv} {tmpl : String} {done : List (Option (ℚ × ℚ))}
    {st : PassState} (h : PassInv env tmpl done st) (u v : ℚ) (p : String)
    (hp : resolvePath tmpl (udimNumber u v) = p)
    (hb : lookupCache st.cache p = none)
    (hex : env.os_path_exists p = false) :
    PassInv env tmpl (done ++ [some (u, v)])
      { st with failed := st.failed ++ [p], cache := st.cache ++ [(p, none)] } := by
  constructor
  · -- cache_spec
    intro q e' hq
    rw [lookupCache_append] at hq
    cases hcq : lookupCache st.cache q with
    | some x =>
      rw [hcq] at hq
      cases hq
      exact h.cache_spec q _ hcq
    | none =>
      rw [hcq] at hq
      by_cases hqp : q = p
      · rw [if_pos hqp] at hq
        cases hq
        subst hqp
        unfold CacheSpecImg
        rw [hex]
        simp
      · rw [if_neg hqp] at hq
        exact absurd hq (by simp)
  · -- cache_covers
    intro u' v' hm
    rcases List.mem_append.mp hm with hm | hm
    · rcases Option.ne_none_iff_exists'.mp (h.cache_covers u' v' hm) with ⟨x, hx⟩
      rw [lookupCache_append_of_found hx]
      simp
    · have huv : (u', v') = (u, v) := by simpa using hm
      rw [Prod.mk.injEq] at huv
      rw [huv.1, huv.2, hp, lookupCache_append_self hb]
      simp
  · -- fail_mem
    intro q e' hq hqex
    rw [lookupCache_append] at hq
    cases hcq : lookupCache st.cache q with
    | some x =>
      exact List.mem_append_left _ (h.fail_mem q x hcq hqex)
    | none =>
      rw [hcq] at hq
      by_cases hqp : q = p
      · subst hqp
        simp
      · rw [if_neg hqp] at hq
        exact absurd hq (by simp)
  · -- repair_uncached
    intro q hq
    rw [lookupCache_append] at hq
    cases hcq : lookupCache st.cache q with
    | some x => rw [hcq] at hq; exact absurd hq (by simp)
    | none => exact h.repair_uncached q hcq
  · -- repair_pos
    intro q e' hq hqex hqo hqj
    rw [lookupCache_append] at hq
    cases hcq : lookupCache st.cache q with
    | some x => exact h.repair_pos q x hcq hqex hqo hqj
    | none =>
      rw [hcq] at hq
      by_cases hqp : q = p
      · subst hqp
        rw [hqex] at hex
        exact absurd hex (by simp)
      · rw [if_neg hqp] at hq
        exact absurd hq (by simp)
  · exact h.repair_neg_exists
  · exact h.repair_neg_open
  · exact h.repair_neg_jpeg
  · exact h.results_tile
  · intro r hr
    exact List.mem_append_left _ (h.results_done r hr)
  · exact h.results_exists

lemma count_append_singleton_ne {l : List String} {p q : String} (hne : q ≠ p) :
    (l ++ [p]).count q = l.count q := by
  rw [List.count_append]
  simp [List.count_cons, hne]

lemma count_append_singleton_self (l : List String) (p : String) :
    (l ++ [p]).count p = l.count p + 1 := by
  rw [List.count_append]
  simp [List.count_cons]

lemma passInv_open_ok {env : FSEnv} {tmpl : String} {done : List (Option (ℚ × ℚ))}
    {st : PassState} (h : PassInv env tmpl done st) (u v : ℚ) (p : String)
    (hp : resolvePath tmpl (udimNumber u v) = p)
    (hb : lookupCache st.cache p = none)
    (hex : env.os_path_exists p = true)
    (img : Image) (ho : env.image_open p = some img) :
    PassInv env tmpl (done ++ [some (u, v)])
      { st with opens := st.opens ++ [p], cache := st.cache ++ [(p, some img)] } := by
  constructor
  · -- cache_spec
    intro q e' hq
    rw [lookupCache_append] at hq
    cases hcq : lookupCache st.cache q with
    | some x =>
      rw [hcq] at hq
      cases hq
      exact h.cache_spec q _ hcq
    | none =>
      rw [hcq] at hq
      by_cases hqp : q = p
      · rw [if_pos hqp] at hq
        cases hq
        subst hqp
        simp [CacheSpecImg, hex, ho]
      · rw [if_neg hqp] at hq
        exact absurd hq (by simp)
  · -- cache_covers
    intro u' v' hm
    rcases List.mem_append.mp hm with hm | hm
    · rcases Option.ne_none_iff_exists'.mp (h.cache_covers u' v' hm) with ⟨x, hx⟩
      rw [lookupCache_append_of_found hx]
      simp
    · have huv : (u', v') = (u, v) := by simpa using hm
      rw [Prod.mk.injEq] at huv
      rw [huv.1, huv.2, hp, lookupCache_append_self hb]
      simp
  · -- fail_mem
    intro q e' hq hqex
    rw [lookupCache_append] at hq
    cases hcq : lookupCache st.cache q with
    | some x => exact h.fail_mem q x hcq hqex
    | none =>
      rw [hcq] at hq
      by_cases hqp : q = p
      · subst hqp
        rw [hqex] at hex
        exact absurd hex (by simp)
      · rw [if_neg hqp] at hq
        exact absurd hq (by simp)
  · -- repair_uncached
    intro q hq
    rw [lookupCache_append] at hq
    cases hcq : lookupCache st.cache q with
    | some x => rw [hcq] at hq; exact absurd hq (by simp)
    | none => exact h.repair_uncached q hcq
  · -- repair_pos
    intro q e' hq hqex hqo hqj
    rw [lookupCache_append] at hq
    cases hcq : lookupCache st.cache q with
    | some x => exact h.repair_pos q x hcq hqex hqo hqj
    | none =>
      rw [hcq] at hq
      by_cases hqp : q = p
      · subst hqp
        rw [hqo] at ho
        exact absurd ho (by simp)
      · rw [if_neg hqp] at hq
        exact absurd hq (by simp)
  · exact h.repair_neg_exists
  · exact h.repair_neg_open
  · exact h.repair_neg_jpeg
  · exact h.results_tile
  · intro r hr
    exact List.mem_append_left _ (h.results_done r hr)
  · exact h.results_exists

lemma passInv_jpeg {env : FSEnv} {tmpl : String} {done : List (Option (ℚ × ℚ))}
    {st : PassState} (h : PassInv env tmpl done st) (u v : ℚ) (p : String)
    (hp : resolvePath tmpl (udimNumber u v) = p)
    (hb : lookupCache st.cache p = none)
    (hex : env.os_path_exists p = true)
    (ho : env.image_open p = none)
    (hj : isJpegFamily p = true) :
    PassInv env tmpl (done ++ [some (u, v)])
      { st with opens := st.opens ++ [p], repairs := st.repairs ++ [p],
                cache := st.cache ++ [(p, env.fix_and_reload_jpeg p)] } := by
  constructor
  · -- cache_spec
    intro q e' hq
    rw [lookupCache_append] at hq
    cases hcq : lookupCache st.cache q with
    | some x =>
      rw [hcq] at hq
      cases hq
      exact h.cache_spec q _ hcq
    | none =>
      rw [hcq] at hq
      by_cases hqp : q = p
      · rw [if_pos hqp] at hq
        cases hq
        subst hqp
        simp [CacheSpecImg, hex, ho, hj]
      · rw [if_neg hqp] at hq
        exact absurd hq (by simp)
  · -- cache_covers
    intro u' v' hm
    rcases List.mem_append.mp hm with hm | hm
    · rcases Option.ne_none_iff_exists'.mp (h.cache_covers u' v' hm) with ⟨x, hx⟩
      rw [lookupCache_append_of_found hx]
      simp
    · have huv : (u', v') = (u, v) := by simpa using hm
      rw [Prod.mk.injEq] at huv
      rw [huv.1, huv.2, hp, lookupCache_append_self hb]
      simp
  · -- fail_mem
    intro q e' hq hqex
    rw [lookupCache_append] at hq
    cases hcq : lookupCache st.cache q with
    | some x => exact h.fail_mem q x hcq hqex
    | none =>
      rw [hcq] at hq
      by_cases hqp : q = p
      · subst hqp
        rw [hqex] at hex
        exact absurd hex (by simp)
      · rw [if_neg hqp] at hq
        exact absurd hq (by simp)
  · -- repair_uncached
    intro q hq
    rw [lookupCache_append] at hq
    cases hcq : lookupCache st.cache q with
    | some x => rw [hcq] at hq; exact absurd hq (by simp)
    | none =>
      by_cases hqp : q = p
      · rw [hcq, if_pos hqp] at hq
        exact absurd hq (by simp)
      · rw [count_append_singleton_ne hqp]
        exact h.repair_uncached q hcq
  · -- repair_pos
    intro q e' hq hqex hqo hqj
    by_cases hqp : q = p
    · subst hqp
      rw [count_append_singleton_self, h.repair_uncached q hb]
    · rw [count_append_singleton_ne hqp]
      rw [lookupCache_append] at hq
      cases hcq : lookupCache st.cache q with
      | some x => exact h.repair_pos q x hcq hqex hqo hqj
      | none =>
        rw [hcq, if_neg hqp] at hq
        exact absurd hq (by simp)
  · -- repair_neg_exists
    intro q hqex
    by_cases hqp : q = p
    · subst hqp
      rw [hqex] at hex
      exact absurd hex (by simp)
    · rw [count_append_singleton_ne hqp]
      exact h.repair_neg_exists q hqex
  · -- repair_neg_open
    intro q img' hqo
    by_cases hqp : q = p
    · subst hqp
      rw [hqo] at ho
      exact absurd ho (by simp)
    · rw [count_append_singleton_ne hqp]
      exact h.repair_neg_open q img' hqo
  · -- repair_neg_jpeg
    intro q hqj
    by_cases hqp : q = p
    · subst hqp
      rw [hqj] at hj
      exact absurd hj (by simp)
    · rw [count_append_singleton_ne hqp]
      exact h.repair_neg_jpeg q hqj
  · exact h.results_tile
  · intro r hr
    exact List.mem_append_left _ (h.results_done r hr)
  · exact h.results_exists

lemma passInv_nonjpeg {env : FSEnv} {tmpl : String} {done : List (Option (ℚ × ℚ))}
    {st : PassState} (h : PassInv env tmpl done st) (u v : ℚ) (p : String)
    (hp : resolvePath tmpl (udimNumber u v) = p)
    (hb : lookupCache st.cache p = none)
    (hex : env.os_path_exists p = true)
    (ho : env.image_open p = none)
    (hj : isJpegFamily p = false) :
    PassInv env tmpl (done ++ [some (u, v)])
      { st with opens := st.opens ++ [p], cache := st.cache ++ [(p, none)] } := by
  constructor
  · -- cache_spec
    intro q e' hq
    rw [lookupCache_append] at hq
    cases hcq : lookupCache st.cache q with
    | some x =>
      rw [hcq] at hq
      cases hq
      exact h.cache_spec q _ hcq
    | none =>
      rw [hcq] at hq
      by_cases hqp : q = p
      · rw [if_pos hqp] at hq
        cases hq
        subst hqp
        simp [CacheSpecImg, hex, ho, hj]
      · rw [if_neg hqp] at hq
        exact absurd hq (by simp)
  · -- cache_covers
    intro u' v' hm
    rcases List.mem_append.mp hm with hm | hm
    · rcases Option.ne_none_iff_exists'.mp (h.cache_covers u' v' hm) with ⟨x, hx⟩
      rw [lookupCache_append_of_found hx]
      simp
    · have huv : (u', v') = (u, v) := by simpa using hm
      rw [Prod.mk.injEq] at huv
      rw [huv.1, huv.2, hp, lookupCache_append_self hb]
      simp
  · -- fail_mem
    intro q e' hq hqex
    rw [lookupCache_append] at hq
    cases hcq : lookupCache st.cache q with
    | some x => exact h.fail_mem q x hcq hqex
    | none =>
      rw [hcq] at hq
      by_cases hqp : q = p
      · subst hqp
        rw [hqex] at hex
        exact absurd hex (by simp)
      · rw [if_neg hqp] at hq
        exact absurd hq (by simp)
  · -- repair_uncached
    intro q hq
    rw [lookupCache_append] at hq
    cases hcq : lookupCache st.cache q with
    | some x => rw [hcq] at hq; exact absurd hq (by simp)
    | none => exact h.repair_uncached q hcq
  · -- repair_pos
    intro q e' hq hqex hqo hqj
    rw [lookupCache_append] at hq
    cases hcq : lookupCache st.cache q with
    | some x => exact h.repair_pos q x hcq hqex hqo hqj
    | none =>
      rw [hcq] at hq
      by_cases hqp : q = p
      · subst hqp
        rw [hqj] at hj
        exact absurd hj (by simp)
      · rw [if_neg hqp] at hq
        exact absurd hq (by simp)
  · exact h.repair_neg_exists
  · exact h.repair_neg_open
  · exact h.repair_neg_jpeg
  · exact h.results_tile
  · intro r hr
    exact List.mem_append_left _ (h.results_done r hr)
  · exact h.results_exists

lemma passInv_sample {env : FSEnv} {tmpl : String} {done : List (Option (ℚ × ℚ))}
    {st : PassState} (u v : ℚ) (img : Image)
    (h : PassInv env tmpl (done ++ [some (u, v)]) st)
    (hex : env.os_path_exists (resolvePath tmpl (udimNumber u v)) = true) :
    PassInv env tmpl (done ++ [some (u, v)])
      (appendSample st u v (udimNumber u v) img) := by
  refine ⟨h.cache_spec, h.cache_covers, h.fail_mem, h.repair_uncached, h.repair_pos,
    h.repair_neg_exists, h.repair_neg_open, h.repair_neg_jpeg, ?_, ?_, ?_⟩
  · intro r hr
    rcases List.mem_append.mp hr with hr | hr
    · exact h.results_tile r hr
    · rw [List.mem_singleton.mp hr]
  · intro r hr
    rcases List.mem_append.mp hr with hr | hr
    · exact h.results_done r hr
    · rw [List.mem_singleton.mp hr]
      exact List.mem_append_right _ (List.mem_singleton.mpr rfl)
  · intro r hr
    rcases List.mem_append.mp hr with hr | hr
    · exact h.results_exists r hr
    · rw [List.mem_singleton.mp hr]
      exact hex

lemma udimStep_inv {env : FSEnv} {tmpl : String} {done : List (Option (ℚ × ℚ))}
    {st : PassState} (h : PassInv env tmpl done st) (c : Option (ℚ × ℚ)) :
    PassInv env tmpl (done ++ [c]) (udimStep env tmpl st c) := by
  cases c with
  | none => exact passInv_skip h none (fun u v hc => Option.noConfusion hc)
  | some uv =>
    obtain ⟨u, v⟩ := uv
    simp only [udimStep]
    cases hb : lookupCache st.cache (resolvePath tmpl (udimNumber u v)) with
    | none =>
      cases hex : env.os_path_exists (resolvePath tmpl (udimNumber u v)) with
      | false => exact passInv_missing h u v _ rfl hb hex
      | true =>
        cases ho : env.image_open (resolvePath tmpl (udimNumber u v)) with
        | some img =>
          exact passInv_sample u v img (passInv_open_ok h u v _ rfl hb hex img ho) hex
        | none =>
          cases hj : isJpegFamily (resolvePath tmpl (udimNumber u v)) with
          | true => exact passInv_jpeg h u v _ rfl hb hex ho hj
          | false => exact passInv_nonjpeg h u v _ rfl hb hex ho hj
    | some e =>
      cases e with
      | none =>
        refine passInv_skip h _ (fun u' v' hc => ?_)
        have huv : (u, v) = (u', v') := by injection hc
        rw [Prod.mk.injEq] at huv
        rw [← huv.1, ← huv.2, hb]
        simp
      | some img =>
        have hspec := h.cache_spec _ _ hb
        have hex : env.os_path_exists (resolvePath tmpl (udimNumber u v)) = true :=
          cacheSpecImg_exists_of_some hspec.symm
        refine passInv_sample u v img (passInv_skip h _ (fun u' v' hc => ?_)) hex
        have huv : (u, v) = (u', v') := by injection hc
        rw [Prod.mk.injEq] at huv
        rw [← huv.1, ← huv.2, hb]
        simp

lemma passInv_foldl {env : FSEnv} {tmpl : String} :
    ∀ (comps : List (Option (ℚ × ℚ))) (done : List (Option (ℚ × ℚ))) (st : PassState),
      PassInv env tmpl done st →
      PassInv env tmpl (done ++ comps) (comps.foldl (udimStep env tmpl) st)
  | [], done, st, h => by simpa using h
  | c :: cs, done, st, h => by
    have h2 := passInv_foldl cs (done ++ [c]) _ (udimStep_inv h c)
    simpa using h2

/-- The invariant holds of the completed sampling loop. -/
lemma passInv_run (env : FSEnv) (tmpl : String) (comps : List (Option (ℚ × ℚ))) :
    PassInv env tmpl comps (comps.foldl (udimStep env tmpl) emptyPass) := by
  have := passInv_foldl comps [] emptyPass (passInv_init env tmpl)
  simpa using this

/-- On an available UV set, the run's internal state is the loop fold. -/
lemma sample_run_st (env : FSEnv) (shape : Shape) (sName tmpl : String)
    (scene : SceneState) (hin : sName ∈ shape.allUVSets) :
    (sample_uv_colors_from_udim env shape sName tmpl scene).st
      = (shape.uvCoords sName).foldl (udimStep env tmpl) emptyPass := by
  unfold sample_uv_colors_from_udim
  rw [if_pos hin]

/-- On an available UV set, the returned list is the fold's results. -/
lemma sample_run_results (env : FSEnv) (shape : Shape) (sName tmpl : String)
    (scene : SceneState) (hin : sName ∈ shape.allUVSets) :
    (sample_uv_colors_from_udim env shape sName tmpl scene).results
      = ((shape.uvCoords sName).foldl (udimStep env tmpl) emptyPass).results := by
  unfold sample_uv_colors_from_udim
  rw [if_pos hin]

/-- The returned results always coincide with the final pass state's. -/
lemma sample_results_st (env : FSEnv) (shape : Shape) (sName tmpl : String)
    (scene : SceneState) :
    (sample_uv_colors_from_udim env shape sName tmpl scene).results
      = (sample_uv_colors_from_udim env shape sName tmpl scene).st.results := by
  unfold sample_uv_colors_from_udim
  split <;> rfl

/-! ## Claims about the sampling pass -/

/-- C1 — For every UV coordinate (U, V) with U ≥ 0 and V ≥ 0 processed by
`sample_uv_colors_from_udim`, the UDIM tile index recorded for that
coordinate equals `1001 + ⌊U⌋ + ⌊V⌋·10`; in particular U = 2.3, V = 1.7
yields tile 1013. -/
theorem tile_index_formula (env : FSEnv) (shape : Shape) (sName tmpl : String)
    (scene : SceneState) (r : SampleResult)
    (hr : r ∈ (sample_uv_colors_from_udim env shape sName tmpl scene).results)
    (_hu : 0 ≤ r.uv.1) (_hv : 0 ≤ r.uv.2) :
    r.tile = 1001 + ⌊r.uv.1⌋ + ⌊r.uv.2⌋ * 10 ∧ udimNumber (23/10) (17/10) = 1013 := by
  constructor
  · by_cases hin : sName ∈ shape.allUVSets
    · rw [sample_run_results env shape sName tmpl scene hin] at hr
      exact (passInv_run env tmpl (shape.uvCoords sName)).results_tile r hr
    · rw [sample_unknown_uv_set env shape sName tmpl scene hin] at hr
      exact absurd hr (by simp)
  · norm_num [udimNumber]

/-- Witness for C1: the single sample taken by the concrete witness scene
(one UV component at (0, 0), texture `"t"` present as a 1×1 image) carries
tile 1001 = 1001 + ⌊0⌋ + ⌊0⌋·10. -/
theorem tile_index_formula_witness :
    (⟨(0, 0), 1001, (0, 0), some (10, 20, 30)⟩ : SampleResult).tile
      = 1001 + ⌊((0 : ℚ), (0 : ℚ)).1⌋ + ⌊((0 : ℚ), (0 : ℚ)).2⌋ * 10 := by
  have hres : (sample_uv_colors_from_udim wEnv wShape "map1" "t" ⟨"map1", []⟩).results
      = [⟨(0, 0), 1001, (0, 0), some (10, 20, 30)⟩] := by
    norm_num [sample_uv_colors_from_udim, udimStep, emptyPass, lookupCache, appendSample,
      resolvePath, pyReplace, pyReplaceAux, pyReplaceGo, udimNumber, pixelX, pixelY, pyInt,
      switchUVSet, wEnv, wShape, wImg]
    decide
  exact (tile_index_formula wEnv wShape "map1" "t" ⟨"map1", []⟩ _
    (by rw [hres]; exact List.mem_singleton.mpr rfl) (le_refl 0) (le_refl 0)).1

/-- C5 — For every resolved texture path that does not exist on disk,
`sample_uv_colors_from_udim` yields no sample for any UV coordinate
resolving to that path (every returned sample's path exists on disk), adds
the path to the sampler's `failed_textures` set, and — the embedding being
a total function — propagates no exception; if every tile path of a UV set
is missing, that UV set yields zero samples. -/
theorem missing_texture_no_sample (env : FSEnv) (shape : Shape) (sName tmpl : String)
    (scene : SceneState) (hin : sName ∈ shape.allUVSets) :
    (∀ u v, some (u, v) ∈ shape.uvCoords sName →
        env.os_path_exists (resolvePath tmpl (udimNumber u v)) = false →
        resolvePath tmpl (udimNumber u v)
          ∈ (sample_uv_colors_from_udim env shape sName tmpl scene).st.failed)
    ∧ (∀ r ∈ (sample_uv_colors_from_udim env shape sName tmpl scene).results,
        env.os_path_exists (resolvePath tmpl r.tile) = true)
    ∧ ((∀ u v, some (u, v) ∈ shape.uvCoords sName →
          env.os_path_exists (resolvePath tmpl (udimNumber u v)) = false) →
        (sample_uv_colors_from_udim env shape sName tmpl scene).results = []) := by
  have hinv := passInv_run env tmpl (shape.uvCoords sName)
  have hst := sample_run_st env shape sName tmpl scene hin
  have hres := sample_run_results env shape sName tmpl scene hin
  refine ⟨?_, ?_, ?_⟩
  · intro u v hm hex
    rw [hst]
    rcases Option.ne_none_iff_exists'.mp (hinv.cache_covers u v hm) with ⟨x, hx⟩
    exact hinv.fail_mem _ x hx hex
  · intro r hr
    rw [hres] at hr
    exact hinv.results_exists r hr
  · intro hall
    rw [hres]
    rw [List.eq_nil_iff_forall_not_mem]
    intro r hr
    have htile := hinv.results_tile r hr
    have hdone := hinv.results_done r hr
    have hex := hinv.results_exists r hr
    rw [htile] at hex
    have : some (r.uv.1, r.uv.2) ∈ shape.uvCoords sName := by
      simpa using hdone
    rw [hall r.uv.1 r.uv.2 this] at hex
    exact absurd hex (by simp)

/-- Witness for C5: with no file on disk, the single UV component at (0, 0)
resolves to path `"t"`, which lands in the failed set, and the pass returns
zero samples. -/
theorem missing_texture_no_sample_witness :
    ("t" ∈ (sample_uv_colors_from_udim ⟨fun _ => false, fun _ => none, fun _ => none⟩
        wShape "map1" "t" ⟨"map1", []⟩).st.failed)
    ∧ (sample_uv_colors_from_udim ⟨fun _ => false, fun _ => none, fun _ => none⟩
        wShape "map1" "t" ⟨"map1", []⟩).results = [] := by
  have h := missing_texture_no_sample ⟨fun _ => false, fun _ => none, fun _ => none⟩
    wShape "map1" "t" ⟨"map1", []⟩ (by decide)
  constructor
  · have h1 := h.1 0 0 (by decide) rfl
    have hpath : resolvePath "t" (udimNumber 0 0) = "t" := by
      norm_num [udimNumber]
      decide
    rwa [hpath] at h1
  · exact h.2.2 (by
      intro u v hm
      rfl)

/-- C6 — If opening/decoding an image fails in `sample_uv_colors_from_udim`
and its extension is JPEG-family, exactly one repair-and-retry attempt is
made for that path during the pass (repair counter 1) and the result of
that single attempt — repaired image or `none` — is cached for the rest of
the pass; for a non-JPEG-family extension no repair is attempted (counter
0) and the path is cached as missing data (`none`). -/
theorem jpeg_repair_once (env : FSEnv) (shape : Shape) (sName tmpl : String)
    (scene : SceneState) (hin : sName ∈ shape.allUVSets) (u v : ℚ)
    (hm : some (u, v) ∈ shape.uvCoords sName)
    (hex : env.os_path_exists (resolvePath tmpl (udimNumber u v)) = true)
    (ho : env.image_open (resolvePath tmpl (udimNumber u v)) = none) :
    (isJpegFamily (resolvePath tmpl (udimNumber u v)) = true →
      (sample_uv_colors_from_udim env shape sName tmpl scene).st.repairs.count
          (resolvePath tmpl (udimNumber u v)) = 1
      ∧ lookupCache (sample_uv_colors_from_udim env shape sName tmpl scene).st.cache
          (resolvePath tmpl (udimNumber u v))
        = some (env.fix_and_reload_jpeg (resolvePath tmpl (udimNumber u v))))
    ∧ (isJpegFamily (resolvePath tmpl (udimNumber u v)) = false →
      (sample_uv_colors_from_udim env shape sName tmpl scene).st.repairs.count
          (resolvePath tmpl (udimNumber u v)) = 0
      ∧ lookupCache (sample_uv_colors_from_udim env shape sName tmpl scene).st.cache
          (resolvePath tmpl (udimNumber u v)) = some none) := by
  have hinv := passInv_run env tmpl (shape.uvCoords sName)
  have hst := sample_run_st env shape sName tmpl scene hin
  rw [hst]
  rcases Option.ne_none_iff_exists'.mp (hinv.cache_covers u v hm) with ⟨x, hx⟩
  have hspec := hinv.cache_spec _ x hx
  constructor
  · intro hj
    refine ⟨hinv.repair_pos _ x hx hex ho hj, ?_⟩
    rw [hx, hspec]
    unfold CacheSpecImg
    rw [hex, ho, if_pos rfl, hj]
    simp
  · intro hj
    refine ⟨hinv.repair_neg_jpeg _ hj, ?_⟩
    rw [hx, hspec]
    unfold CacheSpecImg
    rw [hex, ho, if_pos rfl, hj]
    simp

/-- Concrete environment for the C6 witness: `"t.jpg"` exists on disk but
fails to open; the repair routine succeeds with `wImg`. -/
def wEnvJpeg : FSEnv :=
  ⟨fun p => p = "t.jpg", fun _ => none, fun p => if p = "t.jpg" then some wImg else none⟩

/-- Witness for C6: sampling over the single UV component at (0, 0) with
template `"t.jpg"` attempts exactly one repair of `"t.jpg"` and caches the
repaired image. -/
theorem jpeg_repair_once_witness :
    (sample_uv_colors_from_udim wEnvJpeg wShape "map1" "t.jpg" ⟨"map1", []⟩).st.repairs.count
        (resolvePath "t.jpg" (udimNumber 0 0)) = 1
    ∧ lookupCache (sample_uv_colors_from_udim wEnvJpeg wShape "map1" "t.jpg" ⟨"map1", []⟩).st.cache
        (resolvePath "t.jpg" (udimNumber 0 0))
      = some (wEnvJpeg.fix_and_reload_jpeg (resolvePath "t.jpg" (udimNumber 0 0))) := by
  have hpath : resolvePath "t.jpg" (udimNumber 0 0) = "t.jpg" := by
    norm_num [udimNumber]
    decide
  have h := jpeg_repair_once wEnvJpeg wShape "map1" "t.jpg" ⟨"map1", []⟩ (by decide) 0 0
    (by decide) (by rw [hpath]; rfl) (by rw [hpath]; rfl)
  exact h.1 (by rw [hpath]; decide)

/-! ## Claims about `convert_to_udim_template` -/

lemma dot_mem_of_matchesAt {l : List Char} (h : matchesAt l = true) :
    ('.' : Char) ∈ l.drop 4 := by
  rcases l with _ | ⟨d1, _ | ⟨d2, _ | ⟨d3, _ | ⟨d4, _ | ⟨e, rest⟩⟩⟩⟩⟩ <;>
    simp [matchesAt] at h ⊢
  exact Or.inl h.1.1.2.symm

lemma dot_not_mem_after_matchesAt {l : List Char} (h : matchesAt l = true) :
    ('.' : Char) ∉ l.drop 5 := by
  rcases l with _ | ⟨d1, _ | ⟨d2, _ | ⟨d3, _ | ⟨d4, _ | ⟨e, rest⟩⟩⟩⟩⟩ <;>
    simp [matchesAt] at h ⊢
  exact fun hmem => h.2 '.' hmem rfl

lemma udimSearchReplace_of_matchesAt :
    ∀ (l : List Char) (i : ℕ), matchesAt (l.drop i) = true →
      udimSearchReplace l = some (l.take i ++ "<UDIM>".toList ++ l.drop (i + 4))
  | [], i, h => by
    rw [List.drop_nil] at h
    simp [matchesAt] at h
  | c :: rest, 0, h => by
    rw [List.drop_zero] at h
    simp [udimSearchReplace, h]
  | c :: rest, j + 1, h => by
    rw [List.drop_succ_cons] at h
    have hm : matchesAt (c :: rest) = false := by
      by_contra hc
      rw [Bool.not_eq_false] at hc
      have hnot := dot_not_mem_after_matchesAt hc
      have hdot : ('.' : Char) ∈ (rest.drop j).drop 4 := dot_mem_of_matchesAt h
      rw [List.drop_drop] at hdot
      have hdot2 : ('.' : Char) ∈ (rest.drop 4).drop j := by
        rw [List.drop_drop]
        have hadd : j + 4 = 4 + j := by omega
        rwa [hadd] at hdot
      have hmem4 : ('.' : Char) ∈ rest.drop 4 := List.mem_of_mem_drop hdot2
      rw [List.drop_succ_cons] at hnot
      exact hnot hmem4
    have ih := udimSearchReplace_of_matchesAt rest j h
    simp [udimSearchReplace, hm, ih, List.take_succ_cons, List.drop_succ_cons]

lemma udimSearchReplace_eq_none :
    ∀ l : List Char, (∀ i, matchesAt (l.drop i) = false) → udimSearchReplace l = none
  | [], _ => rfl
  | c :: rest, h => by
    have h0 := h 0
    rw [List.drop_zero] at h0
    have ih := udimSearchReplace_eq_none rest (fun i => by
      have := h (i + 1)
      rwa [List.drop_succ_cons] at this)
    simp [udimSearchReplace, h0, ih]

/-- Any position at or past the end cannot match, so checking positions
below the length suffices. -/
lemma matchesAt_drop_all_false (l : List Char)
    (h : ∀ i < l.length, matchesAt (l.drop i) = false) :
    ∀ i, matchesAt (l.drop i) = false := by
  intro i
  by_cases hi : i < l.length
  · exact h i hi
  · rw [List.drop_eq_nil_of_le (le_of_not_lt hi)]
    rfl

/-- C7 (amended) — For every path whose filename contains no `<f>` marker
and contains a 4-digit numeric run immediately before the file extension
(`matchesAt` holding at position `i` of the filename), that run is replaced
with the `<UDIM>` marker to build the template (rejoined and with
backslash separators normalized to forward slashes, as the source's final
`.replace("\\", "/")` does); for every path whose filename contains no
such run and no `<f>` marker, the path is returned unchanged. -/
theorem udim_template_conversion :
    (∀ (p : String) (i : ℕ),
      hasSubstring "<f>".toList (os_path_split p.toList).2 = false →
      matchesAt ((os_path_split p.toList).2.drop i) = true →
      convert_to_udim_template p
        = String.mk (pyReplaceAux "\\".toList "/".toList
            (os_path_join (os_path_split p.toList).1
              ((os_path_split p.toList).2.take i ++ "<UDIM>".toList
                ++ (os_path_split p.toList).2.drop (i + 4)))))
    ∧ (∀ p : String,
      hasSubstring "<f>".toList (os_path_split p.toList).2 = false →
      (∀ i, matchesAt ((os_path_split p.toList).2.drop i) = false) →
      convert_to_udim_template p = p) := by
  constructor
  · intro p i hf hm
    have hrep := udimSearchReplace_of_matchesAt _ i hm
    simp only [String.toList] at hf hrep
    simp [convert_to_udim_template, hf, hrep, String.toList]
  · intro p hf hnone
    have hrep := udimSearchReplace_eq_none _ hnone
    simp only [String.toList] at hf hrep
    simp [convert_to_udim_template, hf, hrep, String.toList]

/-- C7, counterexample to the claim as stated: the filename
`"x<f>1234.png"` contains a 4-digit run immediately before the extension
(at position 4), yet `convert_to_udim_template` does not replace it — the
`<f>` branch wins and the digits survive. -/
theorem udim_template_conversion_counterexample :
    matchesAt (("x<f>1234.png".toList).drop 4) = true
    ∧ convert_to_udim_template "x<f>1234.png" = "x<UDIM>1234.png"
    ∧ "x<UDIM>1234.png" ≠ "x<f><UDIM>.png" := by decide

/-- Witness for C7 (amended): `"dir\sub\file.1001.png"` has its run at
position 13 of the filename replaced and its backslashes normalized to
forward slashes, and `"a/b.png"` — with no 4-digit run and no `<f>` — is
returned unchanged. -/
theorem udim_template_conversion_witness :
    convert_to_udim_template "dir\\sub\\file.1001.png"
      = String.mk (pyReplaceAux "\\".toList "/".toList
          (os_path_join (os_path_split "dir\\sub\\file.1001.png".toList).1
            ((os_path_split "dir\\sub\\file.1001.png".toList).2.take 13 ++ "<UDIM>".toList
              ++ (os_path_split "dir\\sub\\file.1001.png".toList).2.drop 17)))
    ∧ convert_to_udim_template "a/b.png" = "a/b.png" :=
  ⟨udim_template_conversion.1 "dir\\sub\\file.1001.png" 13 (by decide) (by decide),
   udim_template_conversion.2 "a/b.png" (by decide)
     (matchesAt_drop_all_false _ (by decide))⟩

/-! ## Claim about the batch pass -/

lemma runShapes_cancelled (env : BatchEnv) (k : ℕ) (hc : env.cancelAt = some k) :
    ∀ (l : List String) (i : ℕ), i ≤ k → k < i + l.length →
      (runShapes env i l).1 = true ∧ (runShapes env i l).2.2 = List.range' i (k - i)
  | [], i, hik, hlen => by
    simp at hlen
    omega
  | s :: rest, i, hik, hlen => by
    by_cases hki : k ≤ i
    · have hkeq : k = i := le_antisymm hki hik
      have hw : wasCanceled env i = true := by
        simp [wasCanceled, hc, hki]
      simp [runShapes, hw, hkeq]
    · have hw : wasCanceled env i = false := by
        simp [wasCanceled, hc]
        omega
      have hik2 : i + 1 ≤ k := by omega
      have hlen2 : k < (i + 1) + rest.length := by
        simp at hlen
        omega
      have ih := runShapes_cancelled env k hc rest (i + 1) hik2 hlen2
      have hrange : List.range' i (k - i) = i :: List.range' (i + 1) (k - (i + 1)) := by
        have hki2 : i < k := by omega
        have : k - i = (k - (i + 1)) + 1 := by omega
        rw [this, List.range'_succ]
      refine ⟨?_, ?_⟩
      · simp [runShapes, hw, ih.1]
      · simp [runShapes, hw, ih.2, hrange]

/-- C9 — If the user cancels the batch pass, `sample_and_save_all_meshes`
stops at the next per-surface cancellation check (the iterations entered
are exactly 0..k−1, each surface's sampling being an atomic step between
checks), no output JSON file is written, and all surfaces recorded before
the cancellation are discarded: the call returns `none` with an empty
write log. -/
theorem cancellation_discards_output (env : BatchEnv) (k : ℕ)
    (hc : env.cancelAt = some k) (hk : k < env.shapes.length) :
    sample_and_save_all_meshes env = (none, [], List.range k) := by
  have hne : env.shapes ≠ [] := by
    intro h
    rw [h] at hk
    simp at hk
  have hrun := runShapes_cancelled env k hc env.shapes 0 (Nat.zero_le k) (by omega)
  unfold sample_and_save_all_meshes
  cases hsh : env.shapes with
  | nil => exact absurd hsh hne
  | cons s rest =>
    rw [← hsh]
    rw [hsh] at hrun hk
    rw [← hsh] at hrun hk
    have h1 := hrun.1
    have h2 := hrun.2
    simp only [h1, if_true, h2]
    rw [Nat.sub_zero, ← List.range_eq_range']

/-- Witness for C9: three shapes, cancellation latching at poll index 1 —
the pass enters only iteration 0, returns `None`, and writes nothing. -/
theorem cancellation_discards_output_witness :
    sample_and_save_all_meshes ⟨["a", "b", "c"], some 1, fun i => some (toString i), "out.json"⟩
      = (none, [], List.range 1) :=
  cancellation_discards_output
    ⟨["a", "b", "c"], some 1, fun i => some (toString i), "out.json"⟩ 1 rfl (by decide)

end ShaderManager
